import Mathlib

/-!
Verification of the battery-management-system simulation cores.

The repository has two dashboard variants:
* `Battery_Management_ui.py` (variant 1): SOC estimator `calculate_soc`,
  health scorer `calculate_battery_health`, status classifier
  `get_detailed_cell_status`, a free-running random-walk tick, and
  capped history buffers.
* `Enhanced_bms.py` (variant 2): task-driven tick `simulate_battery_operation`,
  a task sequencer over a queue of timed tasks, and an uncapped history list.

Floats are modelled as rationals; each call to `random.uniform` becomes an
explicit draw parameter.
-/

namespace BMS

/-- Clamp helper: Python `max(lo, min(hi, x))`. -/
def clamp (lo hi x : ℚ) : ℚ := max lo (min hi x)

/-- Python `round(x, 2)`: round to 2 decimal places (exact tie policy is
irrelevant to the claims, which only compare two calls of the same rounding). -/
def roundTo2 (x : ℚ) : ℚ := (round (x * 100) : ℤ) / 100

/-- Python's `str.lower()` as used on the chemistry keys (all ASCII). -/
def pyLower (s : String) : String := ⟨s.data.map Char.toLower⟩

/-- The `voltage_ranges` dict of `calculate_soc` (variant 1), keyed by the
lower-cased cell-type string. -/
def voltage_ranges : List (String × (ℚ × ℚ)) :=
  [("lfp", (2.5, 3.65)), ("nmc", (3.0, 4.2)), ("nimh", (1.0, 1.4)),
   ("lead-acid", (1.8, 2.1))]

/-- `voltage_ranges.get(cell_type.lower(), (3.0, 4.2))` in `calculate_soc`. -/
def socRange (cell_type : String) : ℚ × ℚ :=
  (List.lookup (pyLower cell_type) voltage_ranges).getD (3.0, 4.2)

/-- `calculate_soc` (Battery_Management_ui.py, lines 185-196): linear
interpolation of voltage inside the chemistry's range, clamped to [0,100]. -/
def calculate_soc (voltage : ℚ) (cell_type : String) : ℚ :=
  let mm := socRange cell_type
  let soc := ((voltage - mm.1) / (mm.2 - mm.1)) * 100
  max 0 (min 100 soc)

/-- The spec's fixed range table (section 4.1), written as the spec words
it: LFP (2.5,3.65), NMC (3.0,4.2), NiMH (1.0,1.4), LeadAcid (1.8,2.1), any
unknown chemistry defaulting to NMC's range. -/
def specRangeTable (k : String) : ℚ × ℚ :=
  if k = "lfp" then (2.5, 3.65)
  else if k = "nmc" then (3.0, 4.2)
  else if k = "nimh" then (1.0, 1.4)
  else if k = "lead-acid" then (1.8, 2.1)
  else (3.0, 4.2)

/-- The SOC estimator as the spec words it (section 4.1): table lookup,
linear interpolation, clamp to [0,100]. -/
def estimate_soc_spec (voltage : ℚ) (cell_type : String) : ℚ :=
  let mm := specRangeTable (pyLower cell_type)
  clamp 0 100 (((voltage - mm.1) / (mm.2 - mm.1)) * 100)

lemma socRange_cases (ct : String) :
    socRange ct = specRangeTable (pyLower ct) := by
  unfold specRangeTable
  unfold socRange voltage_ranges
  by_cases h1 : (pyLower ct) = "lfp"
  · simp [List.lookup, h1]
  · have e1 : ((pyLower ct) == "lfp") = false := beq_eq_false_iff_ne.mpr h1
    by_cases h2 : (pyLower ct) = "nmc"
    · simp [List.lookup, e1, h1, h2]
    · have e2 : ((pyLower ct) == "nmc") = false := beq_eq_false_iff_ne.mpr h2
      by_cases h3 : (pyLower ct) = "nimh"
      · simp [List.lookup, e1, e2, h1, h2, h3]
      · have e3 : ((pyLower ct) == "nimh") = false := beq_eq_false_iff_ne.mpr h3
        by_cases h4 : (pyLower ct) = "lead-acid"
        · simp [List.lookup, e1, e2, e3, h1, h2, h3, h4]
        · have e4 : ((pyLower ct) == "lead-acid") = false :=
            beq_eq_false_iff_ne.mpr h4
          simp [List.lookup, e1, e2, e3, e4, h1, h2, h3, h4]

lemma socRange_lt (ct : String) : (socRange ct).1 < (socRange ct).2 := by
  rw [socRange_cases]
  unfold specRangeTable
  split_ifs <;> norm_num

/-- C1: for every voltage and every chemistry string, `calculate_soc` is
exactly the spec's clamped linear interpolation over the fixed range table
(with unknown chemistries falling back to NMC's range). -/
theorem calculate_soc_eq_spec (voltage : ℚ) (cell_type : String) :
    calculate_soc voltage cell_type = estimate_soc_spec voltage cell_type := by
  unfold calculate_soc estimate_soc_spec clamp
  rw [socRange_cases]

/-- C2: `calculate_soc` is monotonically non-decreasing in voltage, and for
every voltage (in range or not) its result lies in [0,100]. -/
theorem calculate_soc_mono_and_bounded (ct : String) (v1 v2 : ℚ)
    (hv : v1 ≤ v2) :
    calculate_soc v1 ct ≤ calculate_soc v2 ct ∧
      (0 ≤ calculate_soc v1 ct ∧ calculate_soc v1 ct ≤ 100) := by
  have hlt := socRange_lt ct
  have hpos : (0 : ℚ) < (socRange ct).2 - (socRange ct).1 := by linarith
  refine ⟨?_, le_max_left _ _, ?_⟩
  · unfold calculate_soc
    have hdiv : (v1 - (socRange ct).1) / ((socRange ct).2 - (socRange ct).1)
        ≤ (v2 - (socRange ct).1) / ((socRange ct).2 - (socRange ct).1) :=
      (div_le_div_iff_of_pos_right hpos).mpr (by linarith)
    have hmul : (v1 - (socRange ct).1) / ((socRange ct).2 - (socRange ct).1) * 100
        ≤ (v2 - (socRange ct).1) / ((socRange ct).2 - (socRange ct).1) * 100 :=
      mul_le_mul_of_nonneg_right hdiv (by norm_num)
    exact max_le_max le_rfl (min_le_min le_rfl hmul)
  · unfold calculate_soc
    exact max_le (by norm_num) (min_le_left _ _)

/-- Witness for C2 at a concrete input. -/
theorem calculate_soc_mono_and_bounded_witness :
    calculate_soc 3.0 ("LFP") ≤ calculate_soc 3.3 ("LFP") ∧
      (0 ≤ calculate_soc 3.0 ("LFP") ∧ calculate_soc 3.0 ("LFP") ≤ 100) :=
  calculate_soc_mono_and_bounded ("LFP") 3.0 3.3 (by norm_num)

/-! ## Health scorer (variant 1, `calculate_battery_health`) -/

/-- The `optimal_voltages` dict shared by `calculate_battery_health` and
`get_detailed_cell_status`. -/
def optimal_voltages : List (String × ℚ) :=
  [("lfp", 3.3), ("nmc", 3.7), ("nimh", 1.25), ("lead-acid", 2.0)]

/-- `optimal_voltages.get(cell_type.lower(), 3.7)`. -/
def optimalVoltage (cell_type : String) : ℚ :=
  (List.lookup (pyLower cell_type) optimal_voltages).getD 3.7

/-- `calculate_battery_health` (Battery_Management_ui.py, lines 198-244).
The `random.uniform(-2, 2)` draw is the explicit `noise` argument. -/
def calculate_battery_health (voltage current temp soc : ℚ)
    (cell_type : String) (noise : ℚ) : ℚ :=
  let h0 : ℚ := 100
  let h1 :=
    if temp > 50 then h0 - min 30 ((temp - 50) * 3)
    else if temp > 40 then h0 - (temp - 40) * 1.5
    else if temp < 0 then h0 - min 25 (|temp| * 2)
    else if temp < 10 then h0 - (10 - temp) * 0.8
    else h0
  let h2 := h1 - min 20 (|voltage - optimalVoltage cell_type| * 15)
  let absCurrent := |current|
  let h3 :=
    if absCurrent > 8 then h2 - min 25 ((absCurrent - 8) * 3)
    else if absCurrent > 5 then h2 - (absCurrent - 5) * 1.5
    else h2
  let h4 :=
    if soc < 10 then h3 - (10 - soc) * 2
    else if soc > 95 then h3 - (soc - 95) * 1.5
    else if soc < 20 then h3 - (20 - soc) * 0.5
    else if soc > 90 then h3 - (soc - 90) * 0.8
    else h3
  max 0 (min 100 (h4 + noise))

/-- C3: for every combination of inputs (including out-of-range ones) and
every noise draw in [-2,2], the health score lies in [0,100]. -/
theorem calculate_battery_health_bounded (voltage current temp soc : ℚ)
    (cell_type : String) (noise : ℚ)
    (hn1 : -2 ≤ noise) (hn2 : noise ≤ 2) :
    0 ≤ calculate_battery_health voltage current temp soc cell_type noise ∧
      calculate_battery_health voltage current temp soc cell_type noise ≤ 100 := by
  unfold calculate_battery_health
  exact ⟨le_max_left _ _, max_le (by norm_num) (min_le_left _ _)⟩

/-- Witness for C3 at a concrete (extreme) input. -/
theorem calculate_battery_health_bounded_witness :
    0 ≤ calculate_battery_health 9 20 80 120 ("xyz") 2 ∧
      calculate_battery_health 9 20 80 120 ("xyz") 2 ≤ 100 :=
  calculate_battery_health_bounded 9 20 80 120 ("xyz") 2
    (by norm_num) (by norm_num)

/-! ## Status classifier (variant 1, `get_detailed_cell_status`) -/

/-- `get_detailed_cell_status` (Battery_Management_ui.py, lines 246-297):
returns (status, status_class, suggestions); the Python appends suggestions
in source order: health branch, then temperature, then SOC, then voltage
deviation. -/
def get_detailed_cell_status (health temp voltage soc : ℚ)
    (cell_type : String) : String × String × List String :=
  let base : String × String × List String :=
    if health ≥ 95 then ("Excellent", "status-excellent", [])
    else if health ≥ 85 then ("Good", "status-good", [])
    else if health ≥ 70 then ("Normal", "status-normal", ["Monitor regularly"])
    else if health ≥ 50 then
      ("Warning", "status-warning", ["Check cell parameters"])
    else if health ≥ 30 then
      ("Critical", "status-critical", ["Immediate attention required"])
    else ("Danger", "status-danger", ["Replace cell immediately"])
  let sug1 := base.2.2 ++
    (if temp > 45 then ["Cool down the battery"]
     else if temp < 5 then ["Warm up the battery"]
     else [])
  let sug2 := sug1 ++
    (if soc < 15 then ["Charge battery soon"]
     else if soc > 95 then ["Avoid overcharging"]
     else [])
  let sug3 := sug2 ++
    (if |voltage - optimalVoltage cell_type| > 0.3 then
      ["Check voltage regulation"]
     else [])
  (base.1, base.2.1, sug3)

/-- The health-based suggestion segment, as enumerated by the spec. -/
def healthSuggestion (health : ℚ) : List String :=
  if health ≥ 95 then []
  else if health ≥ 85 then []
  else if health ≥ 70 then ["Monitor regularly"]
  else if health ≥ 50 then ["Check cell parameters"]
  else if health ≥ 30 then ["Immediate attention required"]
  else ["Replace cell immediately"]

/-- The temperature-based suggestion segment. -/
def tempSuggestion (temp : ℚ) : List String :=
  if temp > 45 then ["Cool down the battery"]
  else if temp < 5 then ["Warm up the battery"]
  else []

/-- The SOC-based suggestion segment. -/
def socSuggestion (soc : ℚ) : List String :=
  if soc < 15 then ["Charge battery soon"]
  else if soc > 95 then ["Avoid overcharging"]
  else []

/-- The voltage-deviation suggestion segment. -/
def voltSuggestion (voltage : ℚ) (cell_type : String) : List String :=
  if |voltage - optimalVoltage cell_type| > 0.3 then
    ["Check voltage regulation"]
  else []

/-- C4: the classifier is deterministic (same five inputs give the same
status and suggestions), and the suggestion list is always the health
segment, then the temperature segment, then the SOC segment, then the
voltage-deviation segment, in that fixed order. -/
theorem get_detailed_cell_status_deterministic_ordered
    (health temp voltage soc : ℚ) (cell_type : String) :
    get_detailed_cell_status health temp voltage soc cell_type =
      get_detailed_cell_status health temp voltage soc cell_type ∧
    (get_detailed_cell_status health temp voltage soc cell_type).2.2 =
      healthSuggestion health ++ tempSuggestion temp ++
        socSuggestion soc ++ voltSuggestion voltage cell_type := by
  refine ⟨rfl, ?_⟩
  unfold get_detailed_cell_status healthSuggestion tempSuggestion
    socSuggestion voltSuggestion
  split_ifs <;> simp

/-! ## Variant 1 cell state and tick updater -/

/-- One cell's record in variant 1's `cells_data` store. -/
structure Cell1 where
  ctype : String
  voltage : ℚ
  current : ℚ
  temp : ℚ
  capacity : ℚ
  soc : ℚ
  health : ℚ
deriving DecidableEq

/-- One simulation-loop iteration for one cell (Battery_Management_ui.py,
lines 677-704). `tempDraw`, `voltDraw`, `currDraw` are the three
`random.uniform` draws (`uniform(-noise, noise)`,
`uniform(-noise*0.02, noise*0.02)`, `uniform(-noise*0.5, noise*0.5)`);
`healthNoise` is the draw inside `calculate_battery_health`. -/
def tick1 (cell : Cell1) (tempDraw voltDraw currDraw healthNoise : ℚ) : Cell1 :=
  let temp_variation :=
    tempDraw + (if |cell.current| > 3 then |cell.current| * 0.1 else 0)
  let temp1 := clamp (-10) 70 (cell.temp + temp_variation)
  let voltage_variation :=
    voltDraw - (if cell.current < 0 then |cell.current| * 0.002 else 0)
  let voltage1 := clamp 0.1 5.0 (cell.voltage + voltage_variation)
  let current1 := clamp (-15) 15 (cell.current + currDraw)
  let soc1 := calculate_soc voltage1 cell.ctype
  let capacity1 := roundTo2 (voltage1 * |current1|)
  let health1 :=
    calculate_battery_health voltage1 current1 temp1 soc1 cell.ctype healthNoise
  { cell with
    temp := temp1
    voltage := voltage1
    current := current1
    soc := soc1
    capacity := capacity1
    health := health1 }

/-- The sidebar per-cell update (Battery_Management_ui.py, lines 423-431):
takes the slider values and recomputes the derived fields. -/
def sidebarUpdate (cell : Cell1) (cell_type : String)
    (voltage current temp healthNoise : ℚ) : Cell1 :=
  { cell with
    ctype := cell_type
    voltage := voltage
    current := current
    temp := temp
    capacity := roundTo2 (voltage * |current|)
    soc := calculate_soc voltage cell_type
    health := calculate_battery_health voltage current temp
      (calculate_soc voltage cell_type) cell_type healthNoise }

/-! ## Variant 2 cell state and task-driven tick -/

/-- One cell's record in variant 2's store (`create_cell_data` fields plus
the `type` key added right after creation). -/
structure Cell2 where
  ctype : String
  voltage : ℚ
  current : ℚ
  temp : ℚ
  capacity : ℚ
  min_voltage : ℚ
  max_voltage : ℚ
  soc : ℚ
  health : ℚ
  status : String
deriving DecidableEq

/-- Task kinds of variant 2 ("CC_CV", "CC_CD", "IDLE"). -/
inductive TaskType where
  | CC_CV : TaskType
  | CC_CD : TaskType
  | IDLE : TaskType
deriving DecidableEq

/-- The named numeric parameters of a task; `current` is optional because
`simulate_battery_operation` reads it with `task_params.get("current", 1.0)`. -/
structure TaskParams where
  current : Option ℚ
  time_seconds : ℤ
deriving DecidableEq

/-- A queued task (`task_info` built by the Add-Task handler). -/
structure Task where
  ttype : TaskType
  params : TaskParams
  completed : Bool
deriving DecidableEq

/-- `simulate_battery_operation` (Enhanced_bms.py, lines 119-147); `tempDraw`
is the `random.uniform(-0.5, 0.5)` draw. -/
def simulate_battery_operation (cell : Cell2) (task_type : TaskType)
    (task_params : TaskParams) (tempDraw : ℚ) : Cell2 :=
  let c1 :=
    match task_type with
    | .CC_CV =>
        { cell with
          current := task_params.current.getD 1.0
          voltage := min (cell.voltage + 0.01) cell.max_voltage
          soc := min (cell.soc + 0.5) 100
          status := "CHARGING" }
    | .CC_CD =>
        { cell with
          current := -|task_params.current.getD 1.0|
          voltage := max (cell.voltage - 0.01) cell.min_voltage
          soc := max (cell.soc - 0.3) 0
          status := "DISCHARGING" }
    | .IDLE =>
        { cell with
          current := 0.0
          status := "IDLE" }
  let c2 :=
    if |c1.current| > 0 then { c1 with temp := clamp 20 50 (c1.temp + tempDraw) }
    else c1
  { c2 with capacity := roundTo2 (c2.voltage * |c2.current|) }

/-- C10: one application of `simulate_battery_operation` never changes the
cell's health or its min/max voltage bound fields, for every task kind,
every parameter set, every draw and every starting state. -/
theorem simulate_battery_operation_frame (cell : Cell2)
    (task_type : TaskType) (task_params : TaskParams) (tempDraw : ℚ) :
    (simulate_battery_operation cell task_type task_params tempDraw).health
        = cell.health ∧
      (simulate_battery_operation cell task_type task_params tempDraw).min_voltage
        = cell.min_voltage ∧
      (simulate_battery_operation cell task_type task_params tempDraw).max_voltage
        = cell.max_voltage := by
  cases task_type <;> simp only [simulate_battery_operation] <;>
    split_ifs <;> simp

/-- The LFP cell used to refute C5's variant-1 half: its voltage sits at the
top of variant 1's generic slider range. -/
def cellLFPFull : Cell1 :=
  { ctype := "LFP", voltage := 5, current := 0, temp := 25,
    capacity := 0, soc := 50, health := 90 }

/-- C5 counterexample: after a variant-1 tick (all random draws zero), the
LFP cell's voltage is 5.0, strictly above LFP's chemistry maximum 3.65 —
variant 1 clamps only to the generic range [0.1, 5.0]. -/
theorem tick1_voltage_exceeds_chemistry_max :
    (tick1 cellLFPFull 0 0 0 0).voltage = 5 ∧
      (socRange cellLFPFull.ctype).2 < (tick1 cellLFPFull 0 0 0 0).voltage := by
  have hv : (tick1 cellLFPFull 0 0 0 0).voltage = 5 := by
    norm_num [tick1, cellLFPFull, clamp]
  refine ⟨hv, ?_⟩
  rw [hv, socRange_cases]
  have hl : pyLower ("LFP") = "lfp" := by decide
  show (specRangeTable (pyLower cellLFPFull.ctype)).2 < 5
  rw [show cellLFPFull.ctype = "LFP" from rfl, hl]
  norm_num [specRangeTable]

lemma tick1_voltage_ge (cell : Cell1) (d1 d2 d3 d4 : ℚ) :
    0.1 ≤ (tick1 cell d1 d2 d3 d4).voltage := by
  simp only [tick1, clamp]
  exact le_max_left _ _

lemma tick1_voltage_le (cell : Cell1) (d1 d2 d3 d4 : ℚ) :
    (tick1 cell d1 d2 d3 d4).voltage ≤ 5 := by
  simp only [tick1, clamp]
  exact max_le (by norm_num) (le_trans (min_le_left _ _) (by norm_num))

lemma sim_voltage_mem (cell : Cell2) (tt : TaskType) (tp : TaskParams)
    (d : ℚ) (h1 : cell.min_voltage ≤ cell.voltage)
    (h2 : cell.voltage ≤ cell.max_voltage)
    (h3 : cell.min_voltage ≤ cell.max_voltage) :
    cell.min_voltage ≤ (simulate_battery_operation cell tt tp d).voltage ∧
      (simulate_battery_operation cell tt tp d).voltage ≤ cell.max_voltage := by
  cases tt <;> simp only [simulate_battery_operation] <;> split_ifs <;>
    constructor <;> simp <;>
      first
        | exact ⟨by linarith, by linarith⟩
        | linarith

/-- C5 amended: after each tick, variant 1 keeps every cell's voltage in the
generic range [0.1, 5.0] (not the chemistry range), while variant 2 keeps
`min_voltage ≤ voltage ≤ max_voltage` whenever that held before the tick and
the bounds are consistent. -/
theorem tick_voltage_bounds :
    (∀ (cell : Cell1) (d1 d2 d3 d4 : ℚ),
        0.1 ≤ (tick1 cell d1 d2 d3 d4).voltage ∧
          (tick1 cell d1 d2 d3 d4).voltage ≤ 5) ∧
    (∀ (cell : Cell2) (tt : TaskType) (tp : TaskParams) (d : ℚ),
        cell.min_voltage ≤ cell.voltage → cell.voltage ≤ cell.max_voltage →
        cell.min_voltage ≤ cell.max_voltage →
        cell.min_voltage ≤ (simulate_battery_operation cell tt tp d).voltage ∧
          (simulate_battery_operation cell tt tp d).voltage ≤ cell.max_voltage) :=
  ⟨fun cell d1 d2 d3 d4 =>
      ⟨tick1_voltage_ge cell d1 d2 d3 d4, tick1_voltage_le cell d1 d2 d3 d4⟩,
    fun cell tt tp d h1 h2 h3 => sim_voltage_mem cell tt tp d h1 h2 h3⟩

/-- Witness for the amended C5 at a concrete input. -/
theorem tick_voltage_bounds_witness :
    (0.1 ≤ (tick1 cellLFPFull 0 0 0 0).voltage ∧
        (tick1 cellLFPFull 0 0 0 0).voltage ≤ 5) ∧
      (({ ctype := "lfp", voltage := 3.2, current := 0, temp := 30,
          capacity := 0, min_voltage := 2.8, max_voltage := 3.6,
          soc := 50, health := 95, status := "IDLE" } : Cell2).min_voltage ≤
          (simulate_battery_operation
            { ctype := "lfp", voltage := 3.2, current := 0, temp := 30,
              capacity := 0, min_voltage := 2.8, max_voltage := 3.6,
              soc := 50, health := 95, status := "IDLE" }
            TaskType.CC_CV { current := some 1, time_seconds := 60 } 0).voltage ∧
        (simulate_battery_operation
            { ctype := "lfp", voltage := 3.2, current := 0, temp := 30,
              capacity := 0, min_voltage := 2.8, max_voltage := 3.6,
              soc := 50, health := 95, status := "IDLE" }
            TaskType.CC_CV { current := some 1, time_seconds := 60 } 0).voltage ≤
          ({ ctype := "lfp", voltage := 3.2, current := 0, temp := 30,
              capacity := 0, min_voltage := 2.8, max_voltage := 3.6,
              soc := 50, health := 95, status := "IDLE" } : Cell2).max_voltage) :=
  ⟨tick_voltage_bounds.1 cellLFPFull 0 0 0 0,
    tick_voltage_bounds.2 _ TaskType.CC_CV { current := some 1, time_seconds := 60 } 0
      (by norm_num) (by norm_num) (by norm_num)⟩

/-! ## Capacity recomputation (C9) -/

lemma abs_mul_of_nonneg_left (a b : ℚ) (ha : 0 ≤ a) : |a * b| = a * |b| := by
  rw [abs_mul, abs_of_nonneg ha]

lemma tick1_capacity_eq (cell : Cell1) (d1 d2 d3 d4 : ℚ) :
    (tick1 cell d1 d2 d3 d4).capacity =
      roundTo2 ((tick1 cell d1 d2 d3 d4).voltage *
        |(tick1 cell d1 d2 d3 d4).current|) := by
  simp only [tick1]

lemma sim_capacity_eq (cell : Cell2) (tt : TaskType) (tp : TaskParams)
    (d : ℚ) :
    (simulate_battery_operation cell tt tp d).capacity =
      roundTo2 ((simulate_battery_operation cell tt tp d).voltage *
        |(simulate_battery_operation cell tt tp d).current|) := by
  cases tt <;> simp only [simulate_battery_operation] <;> split_ifs <;> simp

lemma sim_voltage_nonneg (cell : Cell2) (tt : TaskType) (tp : TaskParams)
    (d : ℚ) (hv : 0 ≤ cell.voltage) (hmin : 0 ≤ cell.min_voltage)
    (hmax : 0 ≤ cell.max_voltage) :
    0 ≤ (simulate_battery_operation cell tt tp d).voltage := by
  cases tt <;> simp only [simulate_battery_operation] <;> split_ifs <;>
    simp <;>
      first
        | exact ⟨by linarith, by linarith⟩
        | exact Or.inr (by linarith)
        | linarith

/-- C9: after each update that recomputes derived fields — the sidebar cell
edit, the variant-1 simulation tick, and the variant-2 task tick — the
capacity field equals `round(|voltage * current|, 2)` computed from the
post-update voltage and current (the nonnegativity hypotheses are the
slider ranges and the stored voltage bounds). -/
theorem capacity_recomputed :
    (∀ (cell : Cell1) (ct : String) (v i t n : ℚ), 0 ≤ v →
        (sidebarUpdate cell ct v i t n).capacity =
          roundTo2 |(sidebarUpdate cell ct v i t n).voltage *
            (sidebarUpdate cell ct v i t n).current|) ∧
    (∀ (cell : Cell1) (d1 d2 d3 d4 : ℚ),
        (tick1 cell d1 d2 d3 d4).capacity =
          roundTo2 |(tick1 cell d1 d2 d3 d4).voltage *
            (tick1 cell d1 d2 d3 d4).current|) ∧
    (∀ (cell : Cell2) (tt : TaskType) (tp : TaskParams) (d : ℚ),
        0 ≤ cell.voltage → 0 ≤ cell.min_voltage → 0 ≤ cell.max_voltage →
        (simulate_battery_operation cell tt tp d).capacity =
          roundTo2 |(simulate_battery_operation cell tt tp d).voltage *
            (simulate_battery_operation cell tt tp d).current|) := by
  refine ⟨?_, ?_, ?_⟩
  · intro cell ct v i t n hv
    simp only [sidebarUpdate]
    rw [abs_mul_of_nonneg_left _ _ hv]
  · intro cell d1 d2 d3 d4
    rw [abs_mul_of_nonneg_left _ _
      (le_trans (by norm_num) (tick1_voltage_ge cell d1 d2 d3 d4))]
    exact tick1_capacity_eq cell d1 d2 d3 d4
  · intro cell tt tp d hv hmin hmax
    rw [abs_mul_of_nonneg_left _ _ (sim_voltage_nonneg cell tt tp d hv hmin hmax)]
    exact sim_capacity_eq cell tt tp d

/-- Witness for C9 at concrete inputs. -/
theorem capacity_recomputed_witness :
    (sidebarUpdate cellLFPFull ("NMC") 3.7 2 25 0).capacity =
        roundTo2 |(sidebarUpdate cellLFPFull ("NMC") 3.7 2 25 0).voltage *
          (sidebarUpdate cellLFPFull ("NMC") 3.7 2 25 0).current| ∧
      (tick1 cellLFPFull 0 0 0 0).capacity =
        roundTo2 |(tick1 cellLFPFull 0 0 0 0).voltage *
          (tick1 cellLFPFull 0 0 0 0).current| ∧
      (simulate_battery_operation
          { ctype := "lfp", voltage := 3.2, current := 0, temp := 30,
            capacity := 0, min_voltage := 2.8, max_voltage := 3.6,
            soc := 50, health := 95, status := "IDLE" }
          TaskType.CC_CD { current := some 2, time_seconds := 30 } 0).capacity =
        roundTo2 |(simulate_battery_operation
          { ctype := "lfp", voltage := 3.2, current := 0, temp := 30,
            capacity := 0, min_voltage := 2.8, max_voltage := 3.6,
            soc := 50, health := 95, status := "IDLE" }
          TaskType.CC_CD { current := some 2, time_seconds := 30 } 0).voltage *
          (simulate_battery_operation
          { ctype := "lfp", voltage := 3.2, current := 0, temp := 30,
            capacity := 0, min_voltage := 2.8, max_voltage := 3.6,
            soc := 50, health := 95, status := "IDLE" }
          TaskType.CC_CD { current := some 2, time_seconds := 30 } 0).current| :=
  ⟨capacity_recomputed.1 cellLFPFull ("NMC") 3.7 2 25 0 (by norm_num),
    capacity_recomputed.2.1 cellLFPFull 0 0 0 0,
    capacity_recomputed.2.2 _ TaskType.CC_CD
      { current := some 2, time_seconds := 30 } 0
      (by norm_num) (by norm_num) (by norm_num)⟩

/-! ## Task enqueue (variant 2, C6) -/

/-- The `task_info` record built by the Add-Task button handler. -/
def mkTaskInfo (tt : TaskType) (tp : TaskParams) : Task :=
  { ttype := tt, params := tp, completed := false }

/-- The Add-Task-to-Sequence button handler (Enhanced_bms.py, lines
199-206): builds `task_info` and appends it to the sequence. -/
def addTaskToSequence (seq : List Task) (tt : TaskType)
    (tp : TaskParams) : List Task :=
  seq ++ [mkTaskInfo tt tp]

/-- C6 counterexample: enqueuing a task with `time_seconds = 0` (a
non-positive duration) succeeds — the queue grows from 0 to 1 and the
task is in the queue; no validation error occurs. -/
theorem addTask_accepts_nonpositive_duration :
    ({ current := none, time_seconds := 0 } : TaskParams).time_seconds ≤ 0 ∧
      (addTaskToSequence [] TaskType.IDLE
        { current := none, time_seconds := 0 }).length = 1 ∧
      mkTaskInfo TaskType.IDLE { current := none, time_seconds := 0 } ∈
        addTaskToSequence [] TaskType.IDLE
          { current := none, time_seconds := 0 } := by
  refine ⟨le_refl 0, rfl, ?_⟩
  simp [addTaskToSequence]

/-- C6 amended: the Add-Task handler performs no duration validation; it
appends unconditionally, so every enqueue (including one with duration ≤ 0)
grows the queue by exactly one. Only the UI slider minimums (5-10 s) keep
non-positive durations out in practice. -/
theorem addTask_always_appends (seq : List Task) (tt : TaskType)
    (tp : TaskParams) :
    addTaskToSequence seq tt tp = seq ++ [mkTaskInfo tt tp] ∧
      (addTaskToSequence seq tt tp).length = seq.length + 1 := by
  refine ⟨rfl, ?_⟩
  simp [addTaskToSequence]

/-! ## Task sequencer (variant 2, C7) -/

/-- The sequencer's session state: `simulation_running`, the task queue,
`current_task_step` and `task_start_time`. -/
structure SeqState where
  simulation_running : Bool
  task_sequence : List Task
  current_task_step : ℕ
  task_start_time : Option ℤ
deriving DecidableEq

/-- One execution of the tab-1 task-sequence-management block
(Enhanced_bms.py, lines 251-268) at wall-clock time `now` (seconds): set
the start time if unset, complete the current task once its duration has
elapsed, advance the step, and on running past the last task stop the
simulation and reset the step to 0. -/
def tickSequencer (st : SeqState) (now : ℤ) : SeqState :=
  if st.simulation_running ∧ st.task_sequence ≠ [] then
    let start := st.task_start_time.getD now
    match st.task_sequence.get? st.current_task_step with
    | none => { st with task_start_time := some start }
    | some t =>
        if now - start ≥ t.params.time_seconds then
          let tasks1 := st.task_sequence.set st.current_task_step
            { t with completed := true }
          let step1 := st.current_task_step + 1
          if step1 ≥ tasks1.length then
            { simulation_running := false
              task_sequence := tasks1
              current_task_step := 0
              task_start_time := none }
          else
            { st with
              task_sequence := tasks1
              current_task_step := step1
              task_start_time := some now }
        else { st with task_start_time := some start }
  else st

/-- The three-task queue of C7: durations 10, 20, 5 seconds. -/
def c7Tasks : List Task :=
  [mkTaskInfo TaskType.CC_CV { current := some 1, time_seconds := 10 },
   mkTaskInfo TaskType.CC_CD { current := some 1, time_seconds := 20 },
   mkTaskInfo TaskType.IDLE { current := none, time_seconds := 5 }]

/-- Running the per-tick step once a second (as the code's 1 s auto-refresh
does) from time 0 to time 35, i.e. until total elapsed time is 35 s. -/
def c7Run : SeqState :=
  (List.range 36).foldl (fun st k => tickSequencer st (k : ℤ))
    { simulation_running := true
      task_sequence := c7Tasks
      current_task_step := 0
      task_start_time := none }

set_option maxRecDepth 100000 in
/-- C7: ticking the sequencer each second over the queue [10, 20, 5] until
total elapsed time reaches 35 s stops the simulation, marks all three tasks
completed, and resets the step index to 0. -/
theorem sequencer_completes_at_35s :
    c7Run.simulation_running = false ∧
      c7Run.task_sequence.all (fun t => t.completed) = true ∧
      c7Run.current_task_step = 0 := by decide

/-! ## History buffers (C8) -/

/-- The Python trim `if len(h) > cap: h = h[-cap:]` (variant 1,
lines 670-674). -/
def trimTail {α : Type} (cap : ℕ) (h : List α) : List α :=
  if h.length > cap then h.drop (h.length - cap) else h

/-- One aggregate-history step of variant 1's simulation loop: append the
snapshot, then keep only the last 100 entries. -/
def historyStep {α : Type} (hist : List α) (snap : α) : List α :=
  trimTail 100 (hist ++ [snap])

/-- One per-cell data-point append of variant 1, trimmed to the last 500. -/
def dataPointsStep {α : Type} (pts : List α) (snap : α) : List α :=
  trimTail 500 (pts ++ [snap])

/-- Variant 2's historical-data append (Enhanced_bms.py, lines 298-308):
a bare append, never trimmed. -/
def tab1AppendHistory {α : Type} (hist : List α) (snap : α) : List α :=
  hist ++ [snap]

lemma trimTail_length_le {α : Type} (cap : ℕ) (h : List α) :
    (trimTail cap h).length ≤ cap := by
  unfold trimTail
  split_ifs with hl
  · simp only [List.length_drop]
    omega
  · omega

lemma foldl_tab1AppendHistory {α : Type} (xs : List α) (init : List α) :
    xs.foldl tab1AppendHistory init = init ++ xs := by
  induction xs generalizing init with
  | nil => simp
  | cons x xs ih => simp [tab1AppendHistory, ih]

/-- C8 counterexample: in variant 2, appending 150 snapshots leaves all 150
in the history list — the buffer is unbounded, so the 100-entry cap fails. -/
theorem tab1History_unbounded :
    ((List.range 150).foldl tab1AppendHistory ([] : List ℕ)).length = 150 ∧
      100 < ((List.range 150).foldl tab1AppendHistory ([] : List ℕ)).length := by
  have h : ((List.range 150).foldl tab1AppendHistory ([] : List ℕ)).length = 150 := by
    rw [foldl_tab1AppendHistory]
    simp
  exact ⟨h, by rw [h]; norm_num⟩

set_option maxRecDepth 100000 in
/-- C8 amended: variant 1's buffers are bounded — after any append-then-trim
step the aggregate buffer holds at most 100 entries and the per-cell buffer
at most 500, and appending 150 aggregate snapshots from empty leaves exactly
the 100 most recent in their original order. Variant 2's history list is
unbounded (appends are never trimmed). -/
theorem history_buffers_bounded_variant1 :
    (∀ (α : Type) (hist : List α) (snap : α),
        (historyStep hist snap).length ≤ 100) ∧
      (∀ (α : Type) (pts : List α) (snap : α),
        (dataPointsStep pts snap).length ≤ 500) ∧
      (List.range 150).foldl historyStep [] = (List.range 150).drop 50 := by
  refine ⟨?_, ?_, ?_⟩
  · intro α hist snap
    exact trimTail_length_le 100 (hist ++ [snap])
  · intro α pts snap
    exact trimTail_length_le 500 (pts ++ [snap])
  · decide

end BMS
